import Mathlib

/-!
Verification development for the Blaze structural-proxy slice:
`LowerProxy` (blaze/math/adaptors/lowermatrix/LowerProxy.h),
`DiagonalProxy` (blaze/math/adaptors/diagonalmatrix/DiagonalProxy.h) and the
sparse-vector reduction (blaze/math/expressions/SVecReduceExpr.h).

The element type is instantiated with `Int` (the test suite uses integral
element types).  A proxy is embedded as its observable state: the current
value of the backing element it references together with its `restricted_`
flag.  A mutating operator of the C++ proxy is embedded as a function from
the proxy state to a pair of an optional error (the thrown
`std::invalid_argument`) and the resulting state; since every operator checks
`restricted_` before touching `value_`, the error branch returns the state
unchanged, exactly as the backing element is untouched when the exception
propagates.
-/

namespace Blaze

/-- The single failure mode of the proxies: the restricted-write rejection,
carrying the exception message of the throwing operator. -/
inductive WriteError where
  | restrictedElementWrite (msg : String)
deriving DecidableEq, Repr

/-- Message of `BLAZE_THROW_INVALID_ARGUMENT` in every `LowerProxy` mutating
operator. -/
def lowerWriteError : WriteError :=
  .restrictedElementWrite "Invalid assignment to upper matrix element"

/-- Message of the `std::invalid_argument` thrown by every `DiagonalProxy`
mutating operator. -/
def diagonalWriteError : WriteError :=
  .restrictedElementWrite "Invalid assignment to non-diagonal matrix element"

/-- State of a `LowerProxy<MT>`: the current value of the referenced matrix
element (`value_`, a reference into the backing matrix) and the `restricted_`
flag. -/
structure LowerProxy where
  value : Int
  restricted : Bool
deriving DecidableEq, Repr

namespace LowerProxy

/-- `LowerProxy::LowerProxy(MT& matrix, size_t row, size_t column)`:
binds `value_` to `matrix(row, column)` and sets
`restricted_( row < column )`.  The matrix is embedded as its element
function. -/
def construct (matrix : Nat → Nat → Int) (row column : Nat) : LowerProxy :=
  { value := matrix row column, restricted := decide (row < column) }

/-- `LowerProxy::get()`: returns `value_`. -/
def get (p : LowerProxy) : Int :=
  p.value

/-- `LowerProxy::isRestricted()`: returns `restricted_`. -/
def isRestricted (p : LowerProxy) : Bool :=
  p.restricted

/-- `LowerProxy::operator ConstReference()`: returns
`static_cast<ConstReference>( value_ )`. -/
def toConstReference (p : LowerProxy) : Int :=
  p.value

/-- `LowerProxy::operator=(const LowerProxy& lp)`: throws if `restricted_`,
otherwise `value_ = lp.value_`. -/
def copyAssign (p src : LowerProxy) : Option WriteError × LowerProxy :=
  if p.restricted then (some lowerWriteError, p)
  else (none, { p with value := src.value })

/-- `LowerProxy::operator=(const T& value)`: throws if `restricted_`,
otherwise `value_ = value`. -/
def assign (p : LowerProxy) (v : Int) : Option WriteError × LowerProxy :=
  if p.restricted then (some lowerWriteError, p)
  else (none, { p with value := v })

/-- `LowerProxy::operator=(initializer_list<T> list)`: throws if
`restricted_`, otherwise `value_ = list`.  The element type's own
initializer-list assignment is embedded as the conversion `conv`. -/
def assignList (p : LowerProxy) (conv : List Int → Int) (list : List Int) :
    Option WriteError × LowerProxy :=
  if p.restricted then (some lowerWriteError, p)
  else (none, { p with value := conv list })

/-- `LowerProxy::operator=(initializer_list<initializer_list<T>> list)`:
throws if `restricted_`, otherwise `value_ = list`, with the nested-list
assignment of the element type embedded as `conv`. -/
def assignList2 (p : LowerProxy) (conv : List (List Int) → Int)
    (list : List (List Int)) : Option WriteError × LowerProxy :=
  if p.restricted then (some lowerWriteError, p)
  else (none, { p with value := conv list })

/-- `LowerProxy::operator+=(const T& value)`: throws if `restricted_`,
otherwise `value_ += value`. -/
def addAssign (p : LowerProxy) (v : Int) : Option WriteError × LowerProxy :=
  if p.restricted then (some lowerWriteError, p)
  else (none, { p with value := p.value + v })

/-- `LowerProxy::operator-=(const T& value)`: throws if `restricted_`,
otherwise `value_ -= value`. -/
def subAssign (p : LowerProxy) (v : Int) : Option WriteError × LowerProxy :=
  if p.restricted then (some lowerWriteError, p)
  else (none, { p with value := p.value - v })

/-- `LowerProxy::operator*=(const T& value)`: throws if `restricted_`,
otherwise `value_ *= value`. -/
def mulAssign (p : LowerProxy) (v : Int) : Option WriteError × LowerProxy :=
  if p.restricted then (some lowerWriteError, p)
  else (none, { p with value := p.value * v })

/-- `LowerProxy::operator/=(const T& value)`: throws if `restricted_`,
otherwise `value_ /= value`. -/
def divAssign (p : LowerProxy) (v : Int) : Option WriteError × LowerProxy :=
  if p.restricted then (some lowerWriteError, p)
  else (none, { p with value := p.value / v })

/-- `LowerProxy::operator%=(const T& value)`: throws if `restricted_`,
otherwise `value_ %= value`. -/
def modAssign (p : LowerProxy) (v : Int) : Option WriteError × LowerProxy :=
  if p.restricted then (some lowerWriteError, p)
  else (none, { p with value := p.value % v })

end LowerProxy

/-- State of a `DiagonalProxy<MT>`: the current value of the referenced matrix
element (`value_`) and the `restricted_` flag. -/
structure DiagonalProxy where
  value : Int
  restricted : Bool
deriving DecidableEq, Repr

namespace DiagonalProxy

/-- `DiagonalProxy::DiagonalProxy(MT& matrix, size_t row, size_t column)`:
binds `value_` to `matrix(row, column)` and sets
`restricted_( row != column )`. -/
def construct (matrix : Nat → Nat → Int) (row column : Nat) : DiagonalProxy :=
  { value := matrix row column, restricted := decide (row ≠ column) }

/-- `DiagonalProxy::get()`: returns `value_`. -/
def get (p : DiagonalProxy) : Int :=
  p.value

/-- `DiagonalProxy::isRestricted()`: returns `restricted_`. -/
def isRestricted (p : DiagonalProxy) : Bool :=
  p.restricted

/-- `DiagonalProxy::operator RawReference()`: returns `get()`. -/
def toRawReference (p : DiagonalProxy) : Int :=
  p.get

/-- `DiagonalProxy::operator=(const DiagonalProxy& dp)`: throws if
`restricted_`, otherwise `value_ = dp.value_`. -/
def copyAssign (p src : DiagonalProxy) : Option WriteError × DiagonalProxy :=
  if p.restricted then (some diagonalWriteError, p)
  else (none, { p with value := src.value })

/-- `DiagonalProxy::operator=(const T& value)`: throws if `restricted_`,
otherwise `value_ = value`. -/
def assign (p : DiagonalProxy) (v : Int) : Option WriteError × DiagonalProxy :=
  if p.restricted then (some diagonalWriteError, p)
  else (none, { p with value := v })

/-- `DiagonalProxy::operator+=(const T& value)`: throws if `restricted_`,
otherwise `value_ += value`. -/
def addAssign (p : DiagonalProxy) (v : Int) : Option WriteError × DiagonalProxy :=
  if p.restricted then (some diagonalWriteError, p)
  else (none, { p with value := p.value + v })

/-- `DiagonalProxy::operator-=(const T& value)`: throws if `restricted_`,
otherwise `value_ -= value`. -/
def subAssign (p : DiagonalProxy) (v : Int) : Option WriteError × DiagonalProxy :=
  if p.restricted then (some diagonalWriteError, p)
  else (none, { p with value := p.value - v })

/-- `DiagonalProxy::operator*=(const T& value)`: throws if `restricted_`,
otherwise `value_ *= value`. -/
def mulAssign (p : DiagonalProxy) (v : Int) : Option WriteError × DiagonalProxy :=
  if p.restricted then (some diagonalWriteError, p)
  else (none, { p with value := p.value * v })

/-- `DiagonalProxy::operator/=(const T& value)`: throws if `restricted_`,
otherwise `value_ /= value`. -/
def divAssign (p : DiagonalProxy) (v : Int) : Option WriteError × DiagonalProxy :=
  if p.restricted then (some diagonalWriteError, p)
  else (none, { p with value := p.value / v })

end DiagonalProxy

/-- Default value of the represented element type (`ET{}` for an integral
element type). -/
def defaultValue : Int := 0

/-- Modelled from the spec: the element-level `blaze::reset` shim
(blaze/math/shims/Reset.h, not under src/) resets a numeric element to its
default initial value. -/
def resetShim (_v : Int) : Int :=
  defaultValue

/-- Modelled from the spec: the element-level `blaze::clear` shim
(blaze/math/shims/Clear.h, not under src/) clears a numeric element to its
default initial state. -/
def clearShim (_v : Int) : Int :=
  defaultValue

/-- Free function `reset(const DiagonalProxy<MT>& proxy)`: calls
`reset( proxy.get() )`, i.e. mutates the referenced element in place through
the raw reference, with no restriction check and no error path. -/
def DiagonalProxy.reset (p : DiagonalProxy) : DiagonalProxy :=
  { p with value := resetShim p.get }

/-- Free function `clear(const DiagonalProxy<MT>& proxy)`: calls
`clear( proxy.get() )`, with no restriction check and no error path. -/
def DiagonalProxy.clear (p : DiagonalProxy) : DiagonalProxy :=
  { p with value := clearShim p.get }

/-- `operator==(const DiagonalProxy<MT1>&, const DiagonalProxy<MT2>&)`:
returns `lhs.get() == rhs.get()`. -/
def diagonalProxyEq (lhs rhs : DiagonalProxy) : Bool :=
  lhs.get == rhs.get

/-- `operator==(const DiagonalProxy<MT>&, const T&)`: returns
`lhs.get() == rhs`. -/
def diagonalProxyEqValue (lhs : DiagonalProxy) (rhs : Int) : Bool :=
  lhs.get == rhs

/-- `operator==(const T&, const DiagonalProxy<MT>&)`: returns
`lhs == rhs.get()`. -/
def valueEqDiagonalProxy (lhs : Int) (rhs : DiagonalProxy) : Bool :=
  lhs == rhs.get

/-- `operator<<(std::ostream& os, const DiagonalProxy<MT>& proxy)`: writes
`proxy.get()` to the stream; embedded as the value written. -/
def diagonalProxyStreamed (p : DiagonalProxy) : Int :=
  p.get

/-- One client-visible operation on a `LowerProxy`: a read (`get`,
`isRestricted`, conversion — all side-effect free) or one of the mutating
operators with its right-hand side. -/
inductive LowerOp where
  | read
  | copyAssign (src : LowerProxy)
  | assign (v : Int)
  | assignList (conv : List Int → Int) (list : List Int)
  | assignList2 (conv : List (List Int) → Int) (list : List (List Int))
  | addAssign (v : Int)
  | subAssign (v : Int)
  | mulAssign (v : Int)
  | divAssign (v : Int)
  | modAssign (v : Int)

/-- The proxy state after one operation.  A thrown restricted-write error
leaves the state as it was (the operators check `restricted_` before any
mutation), so the error branch of each operator already returns the old
state. -/
def LowerProxy.step (p : LowerProxy) : LowerOp → LowerProxy
  | .read => p
  | .copyAssign src => (p.copyAssign src).2
  | .assign v => (p.assign v).2
  | .assignList conv list => (p.assignList conv list).2
  | .assignList2 conv list => (p.assignList2 conv list).2
  | .addAssign v => (p.addAssign v).2
  | .subAssign v => (p.subAssign v).2
  | .mulAssign v => (p.mulAssign v).2
  | .divAssign v => (p.divAssign v).2
  | .modAssign v => (p.modAssign v).2

/-- The proxy state after a sequence of reads, successful writes and failed
writes. -/
def LowerProxy.run (p : LowerProxy) (ops : List LowerOp) : LowerProxy :=
  ops.foldl LowerProxy.step p

/-- One client-visible operation on a `DiagonalProxy`. -/
inductive DiagonalOp where
  | read
  | copyAssign (src : DiagonalProxy)
  | assign (v : Int)
  | addAssign (v : Int)
  | subAssign (v : Int)
  | mulAssign (v : Int)
  | divAssign (v : Int)

/-- The proxy state after one operation on a `DiagonalProxy`. -/
def DiagonalProxy.step (p : DiagonalProxy) : DiagonalOp → DiagonalProxy
  | .read => p
  | .copyAssign src => (p.copyAssign src).2
  | .assign v => (p.assign v).2
  | .addAssign v => (p.addAssign v).2
  | .subAssign v => (p.subAssign v).2
  | .mulAssign v => (p.mulAssign v).2
  | .divAssign v => (p.divAssign v).2

/-- The proxy state after a sequence of operations on a `DiagonalProxy`. -/
def DiagonalProxy.run (p : DiagonalProxy) (ops : List DiagonalOp) : DiagonalProxy :=
  ops.foldl DiagonalProxy.step p

/-- A sparse vector as the reduction expression observes it: its size and the
values of its stored (non-zero) elements in iteration order
(`begin()` … `end()` of the composite). -/
structure SparseVector where
  size : Nat
  values : List Int
deriving DecidableEq, Repr

/-- `blaze::Add`: the addition functor. -/
def addOp (a b : Int) : Int := a + b

/-- `blaze::Mult`: the multiplication functor. -/
def multOp (a b : Int) : Int := a * b

/-- `reduce( const SparseVector<VT,TF>& sv, OP op )`
(blaze/math/expressions/SVecReduceExpr.h): returns `ET{}` when the vector has
size 0 or no stored element; otherwise starts from the first stored value and
folds `op` over the remaining stored values left to right. -/
def reduce (sv : SparseVector) (op : Int → Int → Int) : Int :=
  if sv.size = 0 then defaultValue
  else
    match sv.values with
    | [] => defaultValue
    | v :: rest => rest.foldl op v

/-- `sum( const SparseVector<VT,TF>& sv )`: `reduce( ~sv, Add() )`. -/
def sum (sv : SparseVector) : Int :=
  reduce sv addOp

/-- `prod( const SparseVector<VT,TF>& sv )`: `reduce( ~sv, Mult() )`. -/
def prod (sv : SparseVector) : Int :=
  reduce sv multOp

end Blaze

/-- Helper: a single operation on a `LowerProxy` never changes the
`restricted_` flag — each operator either throws before mutating or updates
only `value_`. -/
theorem lowerStep_restricted (p : Blaze.LowerProxy) (op : Blaze.LowerOp) :
    (p.step op).restricted = p.restricted := by
  cases op <;>
    simp only [Blaze.LowerProxy.step, Blaze.LowerProxy.copyAssign,
      Blaze.LowerProxy.assign, Blaze.LowerProxy.assignList,
      Blaze.LowerProxy.assignList2, Blaze.LowerProxy.addAssign,
      Blaze.LowerProxy.subAssign, Blaze.LowerProxy.mulAssign,
      Blaze.LowerProxy.divAssign, Blaze.LowerProxy.modAssign] <;>
    split <;> rfl

/-- Helper: a sequence of operations on a `LowerProxy` never changes the
`restricted_` flag. -/
theorem lowerRun_restricted (ops : List Blaze.LowerOp) (p : Blaze.LowerProxy) :
    (p.run ops).restricted = p.restricted := by
  induction ops generalizing p with
  | nil => rfl
  | cons op rest ih =>
      show ((p.step op).run rest).restricted = p.restricted
      rw [ih (p.step op), lowerStep_restricted]

/-- Helper: a single operation on a `DiagonalProxy` never changes the
`restricted_` flag. -/
theorem diagonalStep_restricted (p : Blaze.DiagonalProxy) (op : Blaze.DiagonalOp) :
    (p.step op).restricted = p.restricted := by
  cases op <;>
    simp only [Blaze.DiagonalProxy.step, Blaze.DiagonalProxy.copyAssign,
      Blaze.DiagonalProxy.assign, Blaze.DiagonalProxy.addAssign,
      Blaze.DiagonalProxy.subAssign, Blaze.DiagonalProxy.mulAssign,
      Blaze.DiagonalProxy.divAssign] <;>
    split <;> rfl

/-- Helper: a sequence of operations on a `DiagonalProxy` never changes the
`restricted_` flag. -/
theorem diagonalRun_restricted (ops : List Blaze.DiagonalOp)
    (p : Blaze.DiagonalProxy) : (p.run ops).restricted = p.restricted := by
  induction ops generalizing p with
  | nil => rfl
  | cons op rest ih =>
      show ((p.step op).run rest).restricted = p.restricted
      rw [ih (p.step op), diagonalStep_restricted]

/-- C3: a proxy constructed at (row, column) has its restricted flag computed
at construction by the shape predicate: `row < column` for the
lower-triangular proxy and `row != column` for the diagonal proxy, whatever
the backing matrix holds. -/
theorem restricted_flag_from_shape_predicate
    (matrix : Nat → Nat → Int) (row column : Nat) :
    (Blaze.LowerProxy.construct matrix row column).restricted
        = decide (row < column) ∧
    (Blaze.DiagonalProxy.construct matrix row column).restricted
        = decide (row ≠ column) := by
  exact ⟨rfl, rfl⟩

/-- C4: `isRestricted()` is a pure query determined only by the (row, column)
pair given at construction: after any sequence of reads, successful writes
and failed writes, it still returns the value of the shape predicate at
(row, column). -/
theorem isRestricted_pure_and_stable
    (matrix : Nat → Nat → Int) (row column : Nat)
    (ops : List Blaze.LowerOp) (dops : List Blaze.DiagonalOp) :
    ((Blaze.LowerProxy.construct matrix row column).run ops).isRestricted
        = decide (row < column) ∧
    ((Blaze.DiagonalProxy.construct matrix row column).run dops).isRestricted
        = decide (row ≠ column) := by
  constructor
  · show ((Blaze.LowerProxy.construct matrix row column).run ops).restricted
        = decide (row < column)
    rw [lowerRun_restricted]
    rfl
  · show ((Blaze.DiagonalProxy.construct matrix row column).run dops).restricted
        = decide (row ≠ column)
    rw [diagonalRun_restricted]
    rfl

/-- C1: the write protocol. On a proxy with `restricted_` true, every
mutating operator (copy assignment, value assignment, both initializer-list
assignments, `+=`, `-=`, `*=`, `/=`, and `%=` where the proxy provides it)
fails with the restricted-write error of its proxy kind and leaves the
backing element's value unchanged; on a proxy with `restricted_` false, no
mutating operator raises this error. -/
theorem restricted_write_protocol
    (p src : Blaze.LowerProxy) (q qsrc : Blaze.DiagonalProxy) (v : Int)
    (conv : List Int → Int) (list : List Int)
    (conv2 : List (List Int) → Int) (list2 : List (List Int)) :
    (p.restricted = true →
      p.copyAssign src = (some Blaze.lowerWriteError, p) ∧
      p.assign v = (some Blaze.lowerWriteError, p) ∧
      p.assignList conv list = (some Blaze.lowerWriteError, p) ∧
      p.assignList2 conv2 list2 = (some Blaze.lowerWriteError, p) ∧
      p.addAssign v = (some Blaze.lowerWriteError, p) ∧
      p.subAssign v = (some Blaze.lowerWriteError, p) ∧
      p.mulAssign v = (some Blaze.lowerWriteError, p) ∧
      p.divAssign v = (some Blaze.lowerWriteError, p) ∧
      p.modAssign v = (some Blaze.lowerWriteError, p)) ∧
    (p.restricted = false →
      (p.copyAssign src).1 = none ∧
      (p.assign v).1 = none ∧
      (p.assignList conv list).1 = none ∧
      (p.assignList2 conv2 list2).1 = none ∧
      (p.addAssign v).1 = none ∧
      (p.subAssign v).1 = none ∧
      (p.mulAssign v).1 = none ∧
      (p.divAssign v).1 = none ∧
      (p.modAssign v).1 = none) ∧
    (q.restricted = true →
      q.copyAssign qsrc = (some Blaze.diagonalWriteError, q) ∧
      q.assign v = (some Blaze.diagonalWriteError, q) ∧
      q.addAssign v = (some Blaze.diagonalWriteError, q) ∧
      q.subAssign v = (some Blaze.diagonalWriteError, q) ∧
      q.mulAssign v = (some Blaze.diagonalWriteError, q) ∧
      q.divAssign v = (some Blaze.diagonalWriteError, q)) ∧
    (q.restricted = false →
      (q.copyAssign qsrc).1 = none ∧
      (q.assign v).1 = none ∧
      (q.addAssign v).1 = none ∧
      (q.subAssign v).1 = none ∧
      (q.mulAssign v).1 = none ∧
      (q.divAssign v).1 = none) := by
  refine ⟨fun h => ?_, fun h => ?_, fun h => ?_, fun h => ?_⟩ <;>
    simp [Blaze.LowerProxy.copyAssign, Blaze.LowerProxy.assign,
      Blaze.LowerProxy.assignList, Blaze.LowerProxy.assignList2,
      Blaze.LowerProxy.addAssign, Blaze.LowerProxy.subAssign,
      Blaze.LowerProxy.mulAssign, Blaze.LowerProxy.divAssign,
      Blaze.LowerProxy.modAssign, Blaze.DiagonalProxy.copyAssign,
      Blaze.DiagonalProxy.assign, Blaze.DiagonalProxy.addAssign,
      Blaze.DiagonalProxy.subAssign, Blaze.DiagonalProxy.mulAssign,
      Blaze.DiagonalProxy.divAssign, h]

/-- Witness for C1: the restricted lower proxy at value 0 rejects `= 7`
leaving the element at 0, and the unrestricted diagonal proxy accepts it. -/
theorem restricted_write_protocol_witness :
    Blaze.LowerProxy.assign ⟨0, true⟩ 7
        = (some Blaze.lowerWriteError, ⟨0, true⟩) ∧
    (Blaze.DiagonalProxy.assign ⟨5, false⟩ 7).1 = none := by
  have h := restricted_write_protocol ⟨0, true⟩ ⟨1, false⟩ ⟨5, false⟩ ⟨1, false⟩
    7 (fun l => 0) [] (fun l => 0) []
  exact ⟨(h.1 rfl).2.1, (h.2.2.2 rfl).2.1⟩

/-- C2: at an unrestricted position (row ≥ column for the lower proxy, the
diagonal position (d, d) for the diagonal proxy), assigning a value v through
the proxy raises no error and a subsequent `get()` returns exactly v. -/
theorem unrestricted_assignment_roundtrip
    (matrix : Nat → Nat → Int) (row column : Nat) (v : Int)
    (h : column ≤ row) (d : Nat) :
    ((Blaze.LowerProxy.construct matrix row column).assign v).1 = none ∧
    ((Blaze.LowerProxy.construct matrix row column).assign v).2.get = v ∧
    ((Blaze.DiagonalProxy.construct matrix d d).assign v).1 = none ∧
    ((Blaze.DiagonalProxy.construct matrix d d).assign v).2.get = v := by
  have hlt : ¬ row < column := Nat.not_lt.mpr h
  simp [Blaze.LowerProxy.construct, Blaze.LowerProxy.assign,
    Blaze.LowerProxy.get, Blaze.DiagonalProxy.construct,
    Blaze.DiagonalProxy.assign, Blaze.DiagonalProxy.get, hlt]

/-- Witness for C2: writing 7 at (2, 1) of a zero lower matrix and at (1, 1)
of a zero diagonal matrix succeeds and reads back as 7. -/
theorem unrestricted_assignment_roundtrip_witness :
    ((Blaze.LowerProxy.construct (fun _ _ => 0) 2 1).assign 7).1 = none ∧
    ((Blaze.LowerProxy.construct (fun _ _ => 0) 2 1).assign 7).2.get = 7 ∧
    ((Blaze.DiagonalProxy.construct (fun _ _ => 0) 1 1).assign 7).1 = none ∧
    ((Blaze.DiagonalProxy.construct (fun _ _ => 0) 1 1).assign 7).2.get = 7 :=
  unrestricted_assignment_roundtrip (fun _ _ => 0) 2 1 7 (by decide) 1

/-- C5: `get()` returns the current value of the backing element and the
conversion operator is always permitted, for restricted and unrestricted
proxies alike; after a rejected write to a restricted element, `get()` still
returns the value the element held before (read-after-failed-write never
errors). -/
theorem get_always_returns_current_value
    (p : Blaze.LowerProxy) (q : Blaze.DiagonalProxy) (v : Int) :
    p.get = p.value ∧
    p.toConstReference = p.get ∧
    q.get = q.value ∧
    q.toRawReference = q.get ∧
    (p.restricted = true →
      (p.assign v).1 = some Blaze.lowerWriteError ∧
      (p.assign v).2.get = p.get) ∧
    (q.restricted = true →
      (q.assign v).1 = some Blaze.diagonalWriteError ∧
      (q.assign v).2.get = q.get) := by
  refine ⟨rfl, rfl, rfl, rfl, fun h => ?_, fun h => ?_⟩ <;>
    simp [Blaze.LowerProxy.assign, Blaze.DiagonalProxy.assign,
      Blaze.LowerProxy.get, Blaze.DiagonalProxy.get, h]

/-- Witness for C5: `proxy = 7` on the restricted element (0, 2) of an
all-zero 3×3 lower matrix fails, and a following `get()` still returns 0. -/
theorem get_always_returns_current_value_witness :
    ((Blaze.LowerProxy.construct (fun _ _ => 0) 0 2).assign 7).1
        = some Blaze.lowerWriteError ∧
    ((Blaze.LowerProxy.construct (fun _ _ => 0) 0 2).assign 7).2.get = 0 := by
  have h := get_always_returns_current_value
    (Blaze.LowerProxy.construct (fun _ _ => 0) 0 2) ⟨0, false⟩ 7
  exact ⟨(h.2.2.2.2.1 rfl).1, (h.2.2.2.2.1 rfl).2⟩

/-- C6: the free functions `reset` and `clear` on a diagonal proxy bypass the
restriction check (they have no error path at all), leave the referenced
element at its default value, are idempotent, and do not touch the restricted
flag — at every position, restricted or not. -/
theorem reset_clear_bypass_and_idempotent (q : Blaze.DiagonalProxy) :
    q.reset.get = Blaze.defaultValue ∧
    q.clear.get = Blaze.defaultValue ∧
    q.reset.reset = q.reset ∧
    q.clear.clear = q.clear ∧
    q.reset.isRestricted = q.isRestricted ∧
    q.clear.isRestricted = q.isRestricted := by
  refine ⟨rfl, rfl, ?_, ?_, rfl, rfl⟩ <;> rfl

/-- C7: the diagonal proxy's comparison operators compare by current value,
not identity — proxy-vs-proxy equality holds exactly when the two `get()`
values are equal, proxy-vs-value and value-vs-proxy likewise, two proxies
constructed over different cells holding equal values compare equal, and
streaming a proxy writes its current value. -/
theorem diagonal_comparison_by_value
    (p q : Blaze.DiagonalProxy) (v : Int) (matrix : Nat → Nat → Int)
    (r1 c1 r2 c2 : Nat) :
    (Blaze.diagonalProxyEq p q = true ↔ p.get = q.get) ∧
    (Blaze.diagonalProxyEqValue p v = true ↔ p.get = v) ∧
    (Blaze.valueEqDiagonalProxy v p = true ↔ v = p.get) ∧
    (matrix r1 c1 = matrix r2 c2 →
      Blaze.diagonalProxyEq (Blaze.DiagonalProxy.construct matrix r1 c1)
        (Blaze.DiagonalProxy.construct matrix r2 c2) = true) ∧
    Blaze.diagonalProxyStreamed p = p.get := by
  refine ⟨?_, ?_, ?_, fun h => ?_, rfl⟩
  · simp [Blaze.diagonalProxyEq]
  · simp [Blaze.diagonalProxyEqValue]
  · simp [Blaze.valueEqDiagonalProxy]
  · simp [Blaze.diagonalProxyEq, Blaze.DiagonalProxy.construct,
      Blaze.DiagonalProxy.get, h]

/-- Witness for C7: two diagonal proxies over distinct cells (0, 0) and
(1, 2) of a matrix whose cells hold 5 compare equal via `==`. -/
theorem diagonal_comparison_by_value_witness :
    Blaze.diagonalProxyEq (Blaze.DiagonalProxy.construct (fun _ _ => 5) 0 0)
      (Blaze.DiagonalProxy.construct (fun _ _ => 5) 1 2) = true :=
  (diagonal_comparison_by_value ⟨5, false⟩ ⟨5, false⟩ 5 (fun _ _ => 5)
    0 0 1 2).2.2.2.1 rfl

/-- C8: on an unrestricted element initialized to 2, the chain
`proxy += 3; proxy *= 2;` raises no error at either step and a final `get()`
returns 10. -/
theorem chained_compound_assignment (p : Blaze.LowerProxy)
    (h : p.restricted = false) (h2 : p.value = 2) :
    (p.addAssign 3).1 = none ∧
    ((p.addAssign 3).2.mulAssign 2).1 = none ∧
    ((p.addAssign 3).2.mulAssign 2).2.get = 10 := by
  simp [Blaze.LowerProxy.addAssign, Blaze.LowerProxy.mulAssign,
    Blaze.LowerProxy.get, h, h2]

/-- Witness for C8: the chain evaluated on the concrete unrestricted proxy
holding 2. -/
theorem chained_compound_assignment_witness :
    (Blaze.LowerProxy.addAssign ⟨2, false⟩ 3).1 = none ∧
    ((Blaze.LowerProxy.addAssign ⟨2, false⟩ 3).2.mulAssign 2).1 = none ∧
    ((Blaze.LowerProxy.addAssign ⟨2, false⟩ 3).2.mulAssign 2).2.get = 10 :=
  chained_compound_assignment ⟨2, false⟩ rfl rfl

/-- C9: on a sparse vector with no stored elements — including one of size
zero — `reduce` returns the default-constructed element value for every
reduction operation (the operation is never invoked: the result is the same
for all `op`); hence `sum` and `prod` both return the default, so `prod` of
an empty vector is 0, not the multiplicative identity 1. -/
theorem reduce_no_stored_elements (sv : Blaze.SparseVector)
    (h : sv.values = []) (op : Int → Int → Int) :
    Blaze.reduce sv op = Blaze.defaultValue ∧
    Blaze.sum sv = Blaze.defaultValue ∧
    Blaze.prod sv = Blaze.defaultValue ∧
    Blaze.prod sv = 0 := by
  refine ⟨?_, ?_, ?_, ?_⟩ <;>
    simp [Blaze.reduce, Blaze.sum, Blaze.prod, Blaze.defaultValue, h]

/-- Witness for C9: the size-zero sparse vector reduces to 0 under addition
and multiplication alike. -/
theorem reduce_no_stored_elements_witness :
    Blaze.reduce ⟨0, []⟩ Blaze.multOp = Blaze.defaultValue ∧
    Blaze.prod ⟨0, []⟩ = 0 := by
  have h := reduce_no_stored_elements ⟨0, []⟩ rfl Blaze.multOp
  exact ⟨h.1, h.2.2.2⟩

/-- C10: on a sparse vector whose stored values in iteration order are
v :: rest, `reduce` is the left fold of the operation starting from the
first stored value — in particular a single stored element is returned
untouched for every operation — and `sum` is `reduce` under the addition
functor while `prod` is `reduce` under the multiplication functor. -/
theorem reduce_left_fold (sv : Blaze.SparseVector) (v : Int)
    (rest : List Int) (hsz : sv.size ≠ 0) (hv : sv.values = v :: rest)
    (op : Int → Int → Int) :
    Blaze.reduce sv op = List.foldl op v rest ∧
    (rest = [] → Blaze.reduce sv op = v) ∧
    Blaze.sum sv = Blaze.reduce sv Blaze.addOp ∧
    Blaze.prod sv = Blaze.reduce sv Blaze.multOp := by
  refine ⟨?_, fun he => ?_, rfl, rfl⟩
  · simp [Blaze.reduce, hsz, hv]
  · simp [Blaze.reduce, hsz, hv, he]

/-- Witness for C10: the vector storing 2, 3, 4 sums to the left fold
`(2 + 3) + 4 = 9`, and a single stored 5 is returned as is. -/
theorem reduce_left_fold_witness :
    Blaze.reduce ⟨5, [2, 3, 4]⟩ Blaze.addOp = List.foldl Blaze.addOp 2 [3, 4] ∧
    Blaze.reduce ⟨1, [5]⟩ Blaze.multOp = 5 := by
  have h1 := reduce_left_fold ⟨5, [2, 3, 4]⟩ 2 [3, 4] (by decide) rfl Blaze.addOp
  have h2 := reduce_left_fold ⟨1, [5]⟩ 5 [] (by decide) rfl Blaze.multOp
  exact ⟨h1.1, h2.2.1 rfl⟩
